import Mathlib

/-!
# mandelbrot_guiV1.h : colour map construction and display set-up

A shallow embedding of the two functions of `mandelbrot_guiV1.h`,
`initialiseColorMap` and `setup`, together with proofs about the colour ramp
they request and about the set-up handshake.

Xlib itself is not part of the repository.  Every Xlib entry point the two
functions call is therefore a field of the structure `Xlib`, over an arbitrary
type of server states, and every theorem quantifies over all such behaviours.
The model adds ghost logs (the allocation requests, the array stores, the
Xlib calls, the consumed events) so that statements about what the code
requests and in which order can be written down.

Machine integers: `int` values stay far inside the 32 bit range (the loop
index is below 2048, so `i*32 <= 65504` and `i*128 <= 262016`), hence `int`
expressions are computed in `Int` without wrap.  The assignments to the
`unsigned short` channels of `XColor` reduce modulo `2^16`, the assignments of
an `unsigned long` pixel to a `long` reinterpret modulo `2^64` (LP64).
-/

namespace MandelbrotGui

/-! ## Constants and types of the header -/

/-- The macro `NUM_COLORS`. -/
def NUM_COLORS : Nat := 2048

/-- The Xlib flag `DoRed`. -/
def DoRed : Nat := 1

/-- The Xlib flag `DoGreen`. -/
def DoGreen : Nat := 2

/-- The Xlib flag `DoBlue`. -/
def DoBlue : Nat := 4

/-- The Xlib event type code `KeyPress`. -/
def KeyPress : Int := 2

/-- The Xlib event type code `Expose`. -/
def Expose : Int := 12

/-- The Xlib event type code `MappingNotify`; the server sends it to every
client, whatever event mask the client selected. -/
def MappingNotify : Int := 34

/-- The Xlib event mask `KeyPressMask`. -/
def KeyPressMask : Int := 1

/-- The Xlib constant `False`. -/
def XFalse : Int := 0

/-- The type `mapEntry` (an `unsigned long`). -/
abbrev mapEntry : Type := Nat

/-- The Xlib record `XColor`: an `unsigned long` pixel, three `unsigned short`
channels and the `char` flags.  (The unused `pad` byte is left out.) -/
structure XColor where
  pixel : Nat
  red : Nat
  green : Nat
  blue : Nat
  flags : Nat
  deriving DecidableEq, Repr

/-- The part of the Xlib `Display` record that the header reads, all of it
through the macros for the default screen. -/
structure Display where
  default_screen : Int
  width : Int
  height : Int
  root : Nat
  cmap : Nat
  white_pixel : Nat
  black_pixel : Nat
  deriving DecidableEq, Repr

/-- An `XEvent`, reduced to its type code and the window it is reported for. -/
structure XEvent where
  type : Int
  window : Nat
  deriving DecidableEq, Repr

/-- Conversion of an `int` value to `unsigned short`. -/
def toUShort (v : Int) : Nat := (v % 65536).toNat

/-- Conversion of an `unsigned long` value to `long` (64 bit, two complement). -/
def toLong (u : Nat) : Int :=
  if u % 2 ^ 64 < 2 ^ 63 then ((u % 2 ^ 64 : Nat) : Int) else ((u % 2 ^ 64 : Nat) : Int) - 2 ^ 64

/-- The Xlib entry points used by the header, as behaviours over a server
state `σ`.  Calls whose result the header ignores only transform the state. -/
structure Xlib (σ : Type) where
  /-- Yields `none` for the NULL connection. -/
  XOpenDisplay : Option String → Option Display
  XDisplayName : Option String → String
  /-- Takes the colormap and the record; yields the new state, the status and
  the record as the server wrote it back. -/
  XAllocColor : σ → Nat → XColor → σ × Int × XColor
  /-- Arguments: parent, x, y, width, height, border width, border, background. -/
  XCreateSimpleWindow : σ → Nat → Int → Int → Nat → Nat → Nat → Nat → Nat → σ × Nat
  XStoreName : σ → Nat → String → σ
  /-- Arguments: drawable and value mask (the values record is uninitialised
  and, the mask being 0, not read). -/
  XCreateGC : σ → Nat → Int → σ × Nat
  XSetBackground : σ → Nat → Nat → σ
  XSetForeground : σ → Nat → Nat → σ
  XMapWindow : σ → Nat → σ
  XSync : σ → Int → σ
  XSelectInput : σ → Nat → Int → σ

/-! ## initialiseColorMap -/

/-- Ghost record of one `XAllocColor` call: the record as submitted, the
status returned and the record as written back. -/
structure AllocRecord where
  request : XColor
  status : Int
  reply : XColor
  deriving DecidableEq, Repr

/-- The (red, green, blue) triple of a colour record. -/
def XColor.triple (c : XColor) : Nat × Nat × Nat := (c.red, c.green, c.blue)

/-- The `int` expression assigned to `xcolor.red` in the loop (line 46). -/
def redExpr (i : Int) : Int := 32678 - (i * 32)

/-- The `int` expression assigned to `xcolor.green` in the loop (line 47). -/
def greenExpr (i : Int) : Int := i * 128

/-- The `int` expression assigned to `xcolor.blue` in the loop (line 48). -/
def blueExpr (i : Int) : Int := 32768 + (i * 32)

/-- The local variables of `initialiseColorMap`, the server state, and the
ghost logs.  A cell of `colorArray` holding `none` is uninitialised heap. -/
structure ColorState (σ : Type) where
  xcolor : XColor
  colorArray : List (Option mapEntry)
  colorIndex : Nat
  server : σ
  allocs : List AllocRecord
  stores : List (Nat × mapEntry)

/-- The call `XAllocColor(display, DefaultColormapOfScreen(screen_ptr), &xcolor)`. -/
def allocColor {σ : Type} (X : Xlib σ) (display : Display) (st : ColorState σ) : ColorState σ :=
  let r := X.XAllocColor st.server display.cmap st.xcolor
  { st with
    server := r.1
    xcolor := r.2.2
    allocs := st.allocs ++ [⟨st.xcolor, r.2.1, r.2.2⟩] }

/-- The two statements `colorArray[colorIndex] = xcolor.pixel; colorIndex++;`. -/
def storeEntry {σ : Type} (st : ColorState σ) : ColorState σ :=
  { st with
    colorArray := st.colorArray.set st.colorIndex (some st.xcolor.pixel)
    colorIndex := st.colorIndex + 1
    stores := st.stores ++ [(st.colorIndex, st.xcolor.pixel)] }

/-- The five assignments to `xcolor` before the loop (lines 33 to 37). -/
def blackColor : XColor :=
  { pixel := 0
    red := 0
    green := 0
    blue := 0
    flags := DoRed ||| DoGreen ||| DoBlue }

/-- The five assignments to `xcolor` in the loop body (lines 45 to 49) at
index `i`; they overwrite every field of the record. -/
def loopColor (i : Nat) : XColor :=
  { pixel := 0
    red := toUShort (redExpr i)
    green := toUShort (greenExpr i)
    blue := toUShort (blueExpr i)
    flags := DoRed ||| DoGreen ||| DoBlue }

/-- The body of the `for` loop (lines 45 to 53) at index `i`. -/
def loopBody {σ : Type} (X : Xlib σ) (display : Display) (i : Nat) (st : ColorState σ) :
    ColorState σ :=
  storeEntry (allocColor X display { st with xcolor := loopColor i })

/-- The loop `for(i = ...; i < NUM_COLORS; i++)` started at `i`. -/
def colorLoop {σ : Type} (X : Xlib σ) (display : Display) (i : Nat) (st : ColorState σ) :
    ColorState σ :=
  if i < NUM_COLORS then colorLoop X display (i + 1) (loopBody X display i st) else st
termination_by NUM_COLORS - i

/-- The function `initialiseColorMap(display, screen)` run on server state `s`:
the final local state, whose `colorArray` is the returned array.  The
parameter `screen` is unused by the source. -/
def initialiseColorMap {σ : Type} (X : Xlib σ) (display : Display) (_screen : Int) (s : σ) :
    ColorState σ :=
  let st0 : ColorState σ :=
    { xcolor := blackColor
      colorArray := List.replicate NUM_COLORS none
      colorIndex := 0
      server := s
      allocs := []
      stores := [] }
  colorLoop X display 1 (storeEntry (allocColor X display st0))

/-- The record submitted for table index `k`, read off the ghost log. -/
def requestAt? {σ : Type} (run : ColorState σ) (k : Nat) : Option XColor :=
  (run.allocs.map AllocRecord.request)[k]?

/-- The ordered sequence of (red, green, blue) triples submitted. -/
def requestedTriples {σ : Type} (run : ColorState σ) : List (Nat × Nat × Nat) :=
  run.allocs.map fun a => a.request.triple

/-- The record that `xcolor` holds when the call for table index `k` is made. -/
def tableRequest (k : Nat) : XColor := if k = 0 then blackColor else loopColor k

/-- The allocation service run on a sequence of records, one after the other
from state `s`: the final state and, per record, what the service returned. -/
def replay {σ : Type} (X : Xlib σ) (cmap : Nat) : σ → List XColor → σ × List AllocRecord
  | s, [] => (s, [])
  | s, c :: cs =>
    let r := X.XAllocColor s cmap c
    let rest := replay X cmap r.1 cs
    (rest.1, ⟨c, r.2.1, r.2.2⟩ :: rest.2)

/-- Loop invariant of `initialiseColorMap` once `i` entries are done: `i`
calls were made, for the records of the indices below `i` in order, and the
log holds what the service returned for them starting from state `s0`; the
first `i` cells hold the pixels written back by these calls and the other
cells are untouched; the stores went to the indices `0, ..., i-1` in order. -/
structure ColorInv {σ : Type} (X : Xlib σ) (d : Display) (s0 : σ) (i : Nat)
    (st : ColorState σ) : Prop where
  index : st.colorIndex = i
  count : st.allocs.length = i
  served : replay X d.cmap s0 (st.allocs.map AllocRecord.request) = (st.server, st.allocs)
  table : st.colorArray =
    st.allocs.map (fun a => some a.reply.pixel) ++ List.replicate (NUM_COLORS - i) none
  requests : st.allocs.map AllocRecord.request = (List.range i).map tableRequest
  storeIdx : st.stores.map Prod.fst = List.range i
  storeVal : st.stores.map Prod.snd = st.allocs.map (fun a => a.reply.pixel)

/-! ## setup -/

/-- Conversion of an `int` value to `unsigned int`. -/
def toUInt (v : Int) : Nat := (v % 2 ^ 32).toNat

/-- Conversion of a `long` value to `unsigned long`. -/
def toULong (v : Int) : Nat := (v % 2 ^ 64).toNat

/-- Ghost record of one Xlib call that talks to the server. -/
inductive XCall where
  | openDisplay (name : Option String)
  | allocColor (cmap : Nat) (request : XColor)
  | createSimpleWindow (parent : Nat) (x y : Int) (width height border_width : Nat)
      (border background : Nat)
  | storeName (win : Nat) (name : String)
  | createGC (drawable : Nat) (valuemask : Int)
  | setBackground (gc : Nat) (pixel : Nat)
  | setForeground (gc : Nat) (pixel : Nat)
  | mapWindow (win : Nat)
  | sync (discard : Int)
  | selectInput (win : Nat) (mask : Int)
  | nextEvent
  deriving DecidableEq, Repr

/-- Everything outside the locals of `setup`: the server, the event queue of
the connection (the events it will deliver, in order), the diagnostic stream,
the global `g_mapEntry` (`none` is NULL), and the ghost logs. -/
structure World (σ : Type) where
  server : σ
  queue : List XEvent
  consumed : List XEvent
  calls : List XCall
  stderr : List String
  g_mapEntry : Option (List (Option mapEntry))

/-- The cells behind the pointer parameters of `setup`: `*display` (`none` is
NULL), `*win`, `*gc`, `*min_color` and `*max_color`. -/
structure OutCells where
  display : Option Display
  win : Nat
  gc : Nat
  min_color : Int
  max_color : Int
  deriving DecidableEq, Repr

/-- How a call of `setup` ends: it returns a value, or it stays blocked in
`XNextEvent` because the connection never delivers an event. -/
inductive Outcome (σ : Type) where
  | returned (value : Int) (out : OutCells) (world : World σ)
  | blocked (out : OutCells) (world : World σ)

/-- One Xlib request: the server moves to state `s` and the call is logged. -/
def World.request {σ : Type} (w : World σ) (c : XCall) (s : σ) : World σ :=
  { w with server := s, calls := w.calls ++ [c] }

/-- A line written to the diagnostic stream by `fprintf(stderr, ...)`. -/
def World.print {σ : Type} (w : World σ) (line : String) : World σ :=
  { w with stderr := w.stderr ++ [line] }

/-- The call `XNextEvent(*display, &report)`: the head of the queue is taken
and the call returns, whatever the type of that event; on an empty queue the
call does not return. -/
def XNextEvent {σ : Type} (w : World σ) : Option (XEvent × World σ) :=
  match w.queue with
  | [] => none
  | report :: rest =>
    some (report, { w with queue := rest, consumed := w.consumed ++ [report] })

/-- Lines 83 to 115 of `setup`, up to the point where `XNextEvent` has been
called and waits: the cells written and the world reached. -/
def setupPrepare {σ : Type} (X : Xlib σ) (width height : Int) (dpy : Display)
    (out : OutCells) (w : World σ) : OutCells × World σ :=
  let x : Int := 0
  let y : Int := 0
  let border_width : Int := 4
  let window_name : String := "Mandelbrot Set"
  let valuemask : Int := 0
  let screen : Int := dpy.default_screen
  let _disp_width : Int := dpy.width
  let _disp_height : Int := dpy.height
  -- g_mapEntry = initialiseColorMap(*display, screen)
  let run := initialiseColorMap X dpy screen w.server
  let w : World σ :=
    { w with
      server := run.server
      calls := w.calls ++ run.allocs.map (fun a => XCall.allocColor dpy.cmap a.request)
      g_mapEntry := some run.colorArray }
  -- *win = XCreateSimpleWindow (...)
  let cw := X.XCreateSimpleWindow w.server dpy.root x y (toUInt width) (toUInt height)
    (toUInt border_width) dpy.black_pixel dpy.white_pixel
  let win : Nat := cw.2
  let w := w.request (XCall.createSimpleWindow dpy.root x y (toUInt width) (toUInt height)
    (toUInt border_width) dpy.black_pixel dpy.white_pixel) cw.1
  let w := w.request (XCall.storeName win window_name) (X.XStoreName w.server win window_name)
  -- *gc = XCreateGC (...)
  let cg := X.XCreateGC w.server win valuemask
  let gc : Nat := cg.2
  let w := w.request (XCall.createGC win valuemask) cg.1
  let white : Int := toLong dpy.white_pixel
  let black : Int := toLong dpy.black_pixel
  let w := w.request (XCall.setBackground gc (toULong black))
    (X.XSetBackground w.server gc (toULong black))
  let w := w.request (XCall.setForeground gc (toULong white))
    (X.XSetForeground w.server gc (toULong white))
  let w := w.request (XCall.mapWindow win) (X.XMapWindow w.server win)
  let w := w.request (XCall.sync XFalse) (X.XSync w.server XFalse)
  let min_color : Int := if white > black then black else white
  let max_color : Int := if white > black then white else black
  let out : OutCells :=
    { out with win := win, gc := gc, min_color := min_color, max_color := max_color }
  let w := w.print "Press any key (with focus in display) to start the program\n"
  let w := w.request (XCall.selectInput win KeyPressMask)
    (X.XSelectInput w.server win KeyPressMask)
  -- XNextEvent(*display, &report) is entered
  let w := w.request XCall.nextEvent w.server
  (out, w)

/-- Lines 83 to 117 of `setup`: what follows a successful `XOpenDisplay`.  The
value 1 is returned as soon as `XNextEvent` returns. -/
def setupConnected {σ : Type} (X : Xlib σ) (width height : Int) (dpy : Display)
    (out : OutCells) (w : World σ) : Outcome σ :=
  let p := setupPrepare X width height dpy out w
  match XNextEvent p.2 with
  | none => Outcome.blocked p.1 p.2
  | some (_report, w) => Outcome.returned 1 p.1 w

/-- The function `setup(width, height, display, win, gc, min_color, max_color)`,
run with the pointed-to cells `out` in the world `w`. -/
def setup {σ : Type} (X : Xlib σ) (width height : Int) (out : OutCells) (w : World σ) :
    Outcome σ :=
  let disp_name : Option String := none
  -- if ( (*display = XOpenDisplay (disp_name)) == NULL )
  let opened := X.XOpenDisplay disp_name
  let out : OutCells := { out with display := opened }
  let w := w.request (XCall.openDisplay disp_name) w.server
  match opened with
  | none =>
    Outcome.returned 0 out
      (w.print ("Cannot connect to X server " ++ X.XDisplayName disp_name ++ "\n"))
  | some dpy => setupConnected X width height dpy out w

/-! ## Concrete displays used to instantiate the theorems -/

/-- A display record: 24 bit pixels, white above black. -/
def sampleDisplay : Display :=
  { default_screen := 0
    width := 1024
    height := 768
    root := 1
    cmap := 32
    white_pixel := 16777215
    black_pixel := 0 }

/-- A server that counts requests in its state, hands out the request count as
pixel and as window or context identifier, and reports every allocation as
failed (status 0) while overwriting the channels of the record. -/
def countingXlib (opened : Option Display) : Xlib Nat :=
  { XOpenDisplay := fun _ => opened
    XDisplayName := fun _ => ":0"
    XAllocColor := fun s _ c => (s + 1, 0, { c with pixel := s, red := 0, green := 1, blue := 2 })
    XCreateSimpleWindow := fun s _ _ _ _ _ _ _ _ => (s + 1, s)
    XStoreName := fun s _ _ => s + 1
    XCreateGC := fun s _ _ => (s + 1, s)
    XSetBackground := fun s _ _ => s + 1
    XSetForeground := fun s _ _ => s + 1
    XMapWindow := fun s _ => s + 1
    XSync := fun s _ => s + 1
    XSelectInput := fun s _ _ => s + 1 }

/-- A world before `setup` ran: nothing logged, `g_mapEntry` NULL, and the
given events waiting on the connection. -/
def freshWorld (events : List XEvent) : World Nat :=
  { server := 0
    queue := events
    consumed := []
    calls := []
    stderr := []
    g_mapEntry := none }

/-- Arbitrary initial contents of the cells behind the pointer parameters. -/
def staleCells : OutCells :=
  { display := none, win := 11, gc := 12, min_color := 13, max_color := 14 }

/-! ## The loop invariant -/

theorem replay_concat {σ : Type} (X : Xlib σ) (cmap : Nat) (c : XColor) :
    ∀ (l : List XColor) (s : σ),
      replay X cmap s (l ++ [c]) =
        ((X.XAllocColor (replay X cmap s l).1 cmap c).1,
          (replay X cmap s l).2 ++
            [⟨c, (X.XAllocColor (replay X cmap s l).1 cmap c).2.1,
              (X.XAllocColor (replay X cmap s l).1 cmap c).2.2⟩]) := by
  intro l
  induction l with
  | nil => intro s; simp [replay]
  | cons a l ih => intro s; simp [replay, ih]

theorem colorInv_step {σ : Type} (X : Xlib σ) (d : Display) (s0 : σ) (i : Nat)
    (st : ColorState σ) (c : XColor) (hc : c = tableRequest i) (hi : i < NUM_COLORS)
    (h : ColorInv X d s0 i st) :
    ColorInv X d s0 (i + 1) (storeEntry (allocColor X d { st with xcolor := c })) := by
  obtain ⟨hidx, hcnt, hrun, htab, hreq, hsi, hsv⟩ := h
  have hrep : List.replicate (NUM_COLORS - i) (none : Option mapEntry)
      = none :: List.replicate (NUM_COLORS - (i + 1)) none := by
    have : NUM_COLORS - i = (NUM_COLORS - (i + 1)) + 1 := by omega
    rw [this, List.replicate_succ]
  refine ⟨?_, ?_, ?_, ?_, ?_, ?_, ?_⟩
  · simp [storeEntry, allocColor, hidx]
  · simp [storeEntry, allocColor, hcnt]
  · simp only [storeEntry, allocColor, List.map_append, List.map_cons, List.map_nil]
    rw [replay_concat, hrun]
  · simp only [storeEntry, allocColor]
    rw [htab, hidx, hrep, List.set_append_right _ _ (by simp [hcnt])]
    simp [hcnt]
  · simp [storeEntry, allocColor, hreq, List.range_succ, hc]
  · simp [storeEntry, allocColor, hsi, hidx, List.range_succ]
  · simp [storeEntry, allocColor, hsv]

theorem colorInv_loop {σ : Type} (X : Xlib σ) (d : Display) (s0 : σ) :
    ∀ (n i : Nat) (st : ColorState σ), NUM_COLORS - i = n → 1 ≤ i → i ≤ NUM_COLORS →
      ColorInv X d s0 i st → ColorInv X d s0 NUM_COLORS (colorLoop X d i st) := by
  intro n
  induction n with
  | zero =>
    intro i st hn _ hle h
    have hi : i = NUM_COLORS := by omega
    rw [colorLoop, if_neg (by omega)]
    exact hi ▸ h
  | succ n ih =>
    intro i st hn h1 _ h
    have hlt : i < NUM_COLORS := by omega
    rw [colorLoop, if_pos hlt]
    refine ih (i + 1) _ (by omega) (by omega) (by omega) ?_
    have h0 : i ≠ 0 := by omega
    exact colorInv_step X d s0 i st (loopColor i) (by simp [tableRequest, h0]) hlt h

theorem colorInv_initialiseColorMap {σ : Type} (X : Xlib σ) (d : Display) (scr : Int) (s : σ) :
    ColorInv X d s NUM_COLORS (initialiseColorMap X d scr s) := by
  unfold initialiseColorMap
  refine colorInv_loop X d s (NUM_COLORS - 1) 1 _ rfl (by decide) (by decide) ?_
  exact colorInv_step X d s 0
    { xcolor := blackColor, colorArray := List.replicate NUM_COLORS none, colorIndex := 0,
      server := s, allocs := [], stores := [] }
    blackColor (by simp [tableRequest]) (by decide) ⟨rfl, rfl, rfl, by simp, rfl, rfl, rfl⟩

/-- The records submitted by `initialiseColorMap`, in order, for any server. -/
theorem requests_initialiseColorMap {σ : Type} (X : Xlib σ) (d : Display) (scr : Int) (s : σ) :
    (initialiseColorMap X d scr s).allocs.map AllocRecord.request
      = (List.range NUM_COLORS).map tableRequest :=
  (colorInv_initialiseColorMap X d scr s).requests

theorem requestAt?_initialiseColorMap {σ : Type} (X : Xlib σ) (d : Display) (scr : Int) (s : σ)
    (k : Nat) (hk : k < NUM_COLORS) :
    requestAt? (initialiseColorMap X d scr s) k = some (tableRequest k) := by
  unfold requestAt?
  rw [requests_initialiseColorMap, List.getElem?_map, List.getElem?_range hk]
  rfl

theorem requestedTriples_initialiseColorMap {σ : Type} (X : Xlib σ) (d : Display) (scr : Int)
    (s : σ) :
    requestedTriples (initialiseColorMap X d scr s)
      = (List.range NUM_COLORS).map fun k => (tableRequest k).triple := by
  have h := congrArg (List.map XColor.triple) (requests_initialiseColorMap X d scr s)
  simpa [requestedTriples, List.map_map, Function.comp_def] using h

theorem tableRequest_pos (k : Nat) (hk : 1 ≤ k) : tableRequest k = loopColor k := by
  have h0 : k ≠ 0 := by omega
  simp [tableRequest, h0]

/-! ## The colour ramp -/

/-- C1: for 1 <= i < 512 the record submitted for table index i carries
(32678 - 32 i, 128 i, 32768 + 32 i) as unbounded integers, each channel within
[0, 65535]: no channel wraps. -/
theorem no_wrap_below_512 {σ : Type} (X : Xlib σ) (d : Display) (scr : Int) (s : σ) (i : Nat)
    (h1 : 1 ≤ i) (h2 : i < 512) :
    ∃ c, requestAt? (initialiseColorMap X d scr s) i = some c ∧
      (c.red : Int) = 32678 - 32 * i ∧ (c.green : Int) = 128 * i ∧
      (c.blue : Int) = 32768 + 32 * i ∧
      c.red ≤ 65535 ∧ c.green ≤ 65535 ∧ c.blue ≤ 65535 ∧
      (c.red : Int) = redExpr i ∧ (c.green : Int) = greenExpr i ∧ (c.blue : Int) = blueExpr i := by
  refine ⟨loopColor i, ?_, ?_⟩
  · rw [requestAt?_initialiseColorMap X d scr s i (by unfold NUM_COLORS; omega),
      tableRequest_pos i h1]
  · simp only [loopColor, toUShort, redExpr, greenExpr, blueExpr]
    omega

theorem no_wrap_below_512_witness :
    1 ≤ 7 ∧ 7 < 512 ∧ ∃ c, requestAt? (initialiseColorMap (countingXlib (some sampleDisplay)) sampleDisplay 0 0) 7
        = some c ∧
      (c.red : Int) = 32678 - 32 * (7 : Nat) ∧ (c.green : Int) = 128 * (7 : Nat) ∧
      (c.blue : Int) = 32768 + 32 * (7 : Nat) ∧
      c.red ≤ 65535 ∧ c.green ≤ 65535 ∧ c.blue ≤ 65535 ∧
      (c.red : Int) = redExpr (7 : Nat) ∧ (c.green : Int) = greenExpr (7 : Nat) ∧
      (c.blue : Int) = blueExpr (7 : Nat) :=
  ⟨by decide, by decide,
    no_wrap_below_512 (countingXlib (some sampleDisplay)) sampleDisplay 0 0 7
      (by decide) (by decide)⟩

/-- C2: for 512 <= i < 2048 the record submitted for table index i carries the
16 bit wrap of the three linear formulas; blue is still unwrapped below 1024
and is 32768 + 32 i - 65536 from 1024 on. -/
theorem wrapped_from_512 {σ : Type} (X : Xlib σ) (d : Display) (scr : Int) (s : σ) (i : Nat)
    (h1 : 512 ≤ i) (h2 : i < 2048) :
    ∃ c, requestAt? (initialiseColorMap X d scr s) i = some c ∧
      (c.red : Int) = (32678 - 32 * (i : Int)) % 65536 ∧
      (c.green : Int) = (128 * (i : Int)) % 65536 ∧
      (c.blue : Int) = (32768 + 32 * (i : Int)) % 65536 ∧
      (i < 1024 → (c.blue : Int) = 32768 + 32 * i) ∧
      (1024 ≤ i → (c.blue : Int) = 32768 + 32 * i - 65536) := by
  refine ⟨loopColor i, ?_, ?_⟩
  · rw [requestAt?_initialiseColorMap X d scr s i (by unfold NUM_COLORS; omega),
      tableRequest_pos i (by omega)]
  · simp only [loopColor, toUShort, redExpr, greenExpr, blueExpr]
    omega

theorem wrapped_from_512_witness :
    512 ≤ 1500 ∧ 1500 < 2048 ∧ ∃ c, requestAt? (initialiseColorMap (countingXlib (some sampleDisplay)) sampleDisplay 0 0) 1500
        = some c ∧
      (c.red : Int) = (32678 - 32 * ((1500 : Nat) : Int)) % 65536 ∧
      (c.green : Int) = (128 * ((1500 : Nat) : Int)) % 65536 ∧
      (c.blue : Int) = (32768 + 32 * ((1500 : Nat) : Int)) % 65536 ∧
      (1500 < 1024 → (c.blue : Int) = 32768 + 32 * (1500 : Nat)) ∧
      (1024 ≤ 1500 → (c.blue : Int) = 32768 + 32 * (1500 : Nat) - 65536) :=
  ⟨by decide, by decide,
    wrapped_from_512 (countingXlib (some sampleDisplay)) sampleDisplay 0 0 1500
      (by decide) (by decide)⟩

/-- C3, as stated, fails at index 512: the red expression is 16294, not
negative, and the red channel requested there is 16294 itself, not
16294 + 65536. -/
theorem red_not_wrapped_at_512 :
    511 < 512 ∧ 512 < 2048 ∧ ¬ (redExpr (512 : Nat) < 0) ∧
      requestAt? (initialiseColorMap (countingXlib (some sampleDisplay)) sampleDisplay 0 0) 512
        = some { pixel := 0, red := 16294, green := 0, blue := 49152, flags := 7 } ∧
      ((16294 : Nat) : Int) ≠ 32678 - 32 * (512 : Nat) + 65536 := by
  refine ⟨by decide, by decide, by decide, ?_, by decide⟩
  rw [requestAt?_initialiseColorMap _ _ _ _ 512 (by decide)]
  decide

/-- C3 amended: red underflows once i > 1021.  For 1021 < i < 2048 the red
expression 32678 - 32 i is negative and the channel requested is
32678 - 32 i + 65536; for 1 <= i <= 1021 the expression is not negative and is
requested unchanged. -/
theorem red_underflows_from_1022 {σ : Type} (X : Xlib σ) (d : Display) (scr : Int) (s : σ)
    (i : Nat) (h1 : 1 ≤ i) (h2 : i < 2048) :
    ∃ c, requestAt? (initialiseColorMap X d scr s) i = some c ∧
      (1021 < i → redExpr i < 0 ∧ (c.red : Int) = 32678 - 32 * i + 65536) ∧
      (i ≤ 1021 → 0 ≤ redExpr i ∧ (c.red : Int) = 32678 - 32 * i) := by
  refine ⟨loopColor i, ?_, ?_⟩
  · rw [requestAt?_initialiseColorMap X d scr s i (by unfold NUM_COLORS; omega),
      tableRequest_pos i h1]
  · simp only [loopColor, toUShort, redExpr]
    omega

theorem red_underflows_from_1022_witness :
    1 ≤ 1022 ∧ 1022 < 2048 ∧
      ∃ c, requestAt? (initialiseColorMap (countingXlib (some sampleDisplay)) sampleDisplay 0 0)
          1022 = some c ∧
        (1021 < 1022 → redExpr (1022 : Nat) < 0 ∧
          (c.red : Int) = 32678 - 32 * (1022 : Nat) + 65536) ∧
        (1022 ≤ 1021 → 0 ≤ redExpr (1022 : Nat) ∧ (c.red : Int) = 32678 - 32 * (1022 : Nat)) :=
  ⟨by decide, by decide,
    red_underflows_from_1022 (countingXlib (some sampleDisplay)) sampleDisplay 0 0 1022
      (by decide) (by decide)⟩

/-- C4: for every server, the first record submitted by initialiseColorMap has
the triple (0, 0, 0), and table index 0 holds the pixel the service wrote back
for that call (made in the initial server state). -/
theorem first_request_is_black {σ : Type} (X : Xlib σ) (d : Display) (scr : Int) (s : σ) :
    ∃ a, (initialiseColorMap X d scr s).allocs.head? = some a ∧
      a.request.triple = (0, 0, 0) ∧
      a.reply = (X.XAllocColor s d.cmap a.request).2.2 ∧
      a.status = (X.XAllocColor s d.cmap a.request).2.1 ∧
      (initialiseColorMap X d scr s).colorArray[0]? = some (some a.reply.pixel) := by
  have inv := colorInv_initialiseColorMap X d scr s
  have hcnt := inv.count
  have hreq := inv.requests
  have hrun := inv.served
  have htab := inv.table
  cases hal : (initialiseColorMap X d scr s).allocs with
  | nil => rw [hal] at hcnt; exact absurd hcnt (by decide)
  | cons a rest =>
    rw [hal] at hreq hrun htab
    refine ⟨a, rfl, ?_, ?_, ?_, ?_⟩
    · have h0 := congrArg (fun l => l[0]?) hreq
      simp [NUM_COLORS, tableRequest] at h0
      rw [h0]; rfl
    · simp only [List.map_cons, replay, Prod.mk.injEq, List.cons.injEq] at hrun
      exact (congrArg AllocRecord.reply hrun.2.1).symm
    · simp only [List.map_cons, replay, Prod.mk.injEq, List.cons.injEq] at hrun
      exact (congrArg AllocRecord.status hrun.2.1).symm
    · rw [htab]; simp

/-- C5: for every server, initialiseColorMap makes exactly NUM_COLORS = 2048
allocation calls and returns an array of 2048 cells; cell k holds the pixel
written back by call k (the calls being served one after the other from the
initial server state), and the stores went to the indices 0, 1, ..., 2047 in
this order, so no index is skipped or written twice. -/
theorem table_in_generation_order {σ : Type} (X : Xlib σ) (d : Display) (scr : Int) (s : σ) :
    NUM_COLORS = 2048 ∧
      (initialiseColorMap X d scr s).allocs.length = 2048 ∧
      (initialiseColorMap X d scr s).colorArray.length = 2048 ∧
      (∀ k, k < 2048 → ∃ a, (initialiseColorMap X d scr s).allocs[k]? = some a ∧
        (initialiseColorMap X d scr s).colorArray[k]? = some (some a.reply.pixel)) ∧
      (initialiseColorMap X d scr s).stores.map Prod.fst = List.range 2048 ∧
      (initialiseColorMap X d scr s).stores.map Prod.snd
        = (initialiseColorMap X d scr s).allocs.map (fun a => a.reply.pixel) ∧
      replay X d.cmap s ((initialiseColorMap X d scr s).allocs.map AllocRecord.request)
        = ((initialiseColorMap X d scr s).server, (initialiseColorMap X d scr s).allocs) := by
  have inv := colorInv_initialiseColorMap X d scr s
  have hcnt : (initialiseColorMap X d scr s).allocs.length = 2048 := inv.count
  have htab := inv.table
  simp only [Nat.sub_self, List.replicate_zero, List.append_nil] at htab
  refine ⟨rfl, hcnt, ?_, ?_, inv.storeIdx, inv.storeVal, inv.served⟩
  · rw [htab, List.length_map, hcnt]
  · intro k hk
    have hlt : k < (initialiseColorMap X d scr s).allocs.length := by omega
    refine ⟨(initialiseColorMap X d scr s).allocs[k], List.getElem?_eq_getElem hlt, ?_⟩
    rw [htab, List.getElem?_map, List.getElem?_eq_getElem hlt]
    rfl

/-- C6: the ordered sequence of records, hence of (red, green, blue) triples,
submitted by initialiseColorMap is the same for any two servers, displays,
screens and server states: it has 2048 members and does not depend on what the
service returns or writes back. -/
theorem requests_deterministic {σ₁ σ₂ : Type} (X₁ : Xlib σ₁) (X₂ : Xlib σ₂) (d₁ d₂ : Display)
    (scr₁ scr₂ : Int) (s₁ : σ₁) (s₂ : σ₂) :
    requestedTriples (initialiseColorMap X₁ d₁ scr₁ s₁)
        = requestedTriples (initialiseColorMap X₂ d₂ scr₂ s₂) ∧
      (requestedTriples (initialiseColorMap X₁ d₁ scr₁ s₁)).length = 2048 ∧
      (initialiseColorMap X₁ d₁ scr₁ s₁).allocs.map AllocRecord.request
        = (initialiseColorMap X₂ d₂ scr₂ s₂).allocs.map AllocRecord.request := by
  refine ⟨?_, ?_, ?_⟩
  · rw [requestedTriples_initialiseColorMap, requestedTriples_initialiseColorMap]
  · rw [requestedTriples_initialiseColorMap]; simp [NUM_COLORS]
  · rw [requests_initialiseColorMap, requests_initialiseColorMap]

/-- C10: the triples submitted for two different table indices i < j < 2048
differ.  The record for j never has red 0, so it is not black, and the record
for i is black only when i = 0; for 1 <= i the wrapped red channels of i and j
differ, although green repeats with period 512. -/
theorem requested_triples_distinct {σ : Type} (X : Xlib σ) (d : Display) (scr : Int) (s : σ)
    (i j : Nat) (hij : i < j) (hj : j < 2048) :
    ∃ ci cj, requestAt? (initialiseColorMap X d scr s) i = some ci ∧
      requestAt? (initialiseColorMap X d scr s) j = some cj ∧
      (requestedTriples (initialiseColorMap X d scr s))[i]? = some ci.triple ∧
      (requestedTriples (initialiseColorMap X d scr s))[j]? = some cj.triple ∧
      ci.triple ≠ cj.triple ∧
      cj.red ≠ 0 ∧ cj.triple ≠ (0, 0, 0) ∧
      (ci.triple = (0, 0, 0) ↔ i = 0) ∧
      (cj.red : Int) = (32678 - 32 * (j : Int)) % 65536 ∧
      (1 ≤ i → ci.red ≠ cj.red) ∧
      (1 ≤ i → j = i + 512 → ci.green = cj.green) := by
  have hi' : i < NUM_COLORS := by unfold NUM_COLORS; omega
  have hj' : j < NUM_COLORS := by unfold NUM_COLORS; omega
  refine ⟨tableRequest i, tableRequest j, requestAt?_initialiseColorMap X d scr s i hi',
    requestAt?_initialiseColorMap X d scr s j hj', ?_, ?_, ?_⟩
  · rw [requestedTriples_initialiseColorMap, List.getElem?_map, List.getElem?_range hi']; rfl
  · rw [requestedTriples_initialiseColorMap, List.getElem?_map, List.getElem?_range hj']; rfl
  · rw [tableRequest_pos j (by omega)]
    by_cases h0 : i = 0
    · subst h0
      simp only [tableRequest, if_true, blackColor, loopColor, XColor.triple, toUShort, redExpr,
        greenExpr, blueExpr, ne_eq, Prod.mk.injEq, not_and]
      refine ⟨?_, ?_, ?_, ?_, ?_, ?_, ?_⟩
      all_goals first | trivial | omega
    · rw [tableRequest_pos i (by omega)]
      simp only [loopColor, XColor.triple, toUShort, redExpr, greenExpr, blueExpr, ne_eq,
        Prod.mk.injEq, not_and]
      refine ⟨?_, ?_, ?_, ?_, ?_, ?_, ?_⟩
      all_goals first | trivial | omega

theorem requested_triples_distinct_witness :
    3 < 515 ∧ 515 < 2048 ∧
      ∃ ci cj,
        requestAt? (initialiseColorMap (countingXlib (some sampleDisplay)) sampleDisplay 0 0) 3
          = some ci ∧
        requestAt? (initialiseColorMap (countingXlib (some sampleDisplay)) sampleDisplay 0 0) 515
          = some cj ∧
        (requestedTriples
          (initialiseColorMap (countingXlib (some sampleDisplay)) sampleDisplay 0 0))[3]?
            = some ci.triple ∧
        (requestedTriples
          (initialiseColorMap (countingXlib (some sampleDisplay)) sampleDisplay 0 0))[515]?
            = some cj.triple ∧
        ci.triple ≠ cj.triple ∧
        cj.red ≠ 0 ∧ cj.triple ≠ (0, 0, 0) ∧
        (ci.triple = (0, 0, 0) ↔ 3 = 0) ∧
        (cj.red : Int) = (32678 - 32 * ((515 : Nat) : Int)) % 65536 ∧
        (1 ≤ 3 → ci.red ≠ cj.red) ∧
        (1 ≤ 3 → 515 = 3 + 512 → ci.green = cj.green) :=
  ⟨by decide, by decide,
    requested_triples_distinct (countingXlib (some sampleDisplay)) sampleDisplay 0 0 3 515
      (by decide) (by decide)⟩

/-! ## The set-up handshake -/

theorem setupConnected_returns {σ : Type} (X : Xlib σ) (width height : Int) (dpy : Display)
    (out : OutCells) (w : World σ) (e : XEvent) (q : List XEvent) (hq : w.queue = e :: q) :
    setupConnected X width height dpy out w =
      Outcome.returned 1 (setupPrepare X width height dpy out w).1
        { (setupPrepare X width height dpy out w).2 with
          queue := q
          consumed := (setupPrepare X width height dpy out w).2.consumed ++ [e] } := by
  have h : (setupPrepare X width height dpy out w).2.queue = e :: q := hq
  simp only [setupConnected, XNextEvent, h]

theorem setupConnected_blocks {σ : Type} (X : Xlib σ) (width height : Int) (dpy : Display)
    (out : OutCells) (w : World σ) (hq : w.queue = []) :
    setupConnected X width height dpy out w =
      Outcome.blocked (setupPrepare X width height dpy out w).1
        (setupPrepare X width height dpy out w).2 := by
  have h : (setupPrepare X width height dpy out w).2.queue = [] := hq
  simp only [setupConnected, XNextEvent, h]

theorem setup_of_opened {σ : Type} (X : Xlib σ) (width height : Int) (out : OutCells)
    (w : World σ) (dpy : Display) (hopen : X.XOpenDisplay none = some dpy) :
    setup X width height out w =
      setupConnected X width height dpy { out with display := some dpy }
        (w.request (XCall.openDisplay none) w.server) := by
  simp only [setup, hopen]

/-- What `setup` does on a reachable display whose connection delivers an
event: it returns 1 after taking exactly the first event of the queue, whatever
the type of that event, with the colour range ordered by the `long` comparison
and `g_mapEntry` set to the array of `initialiseColorMap`. -/
theorem setup_reachable {σ : Type} (X : Xlib σ) (width height : Int) (out : OutCells)
    (w : World σ) (dpy : Display) (e : XEvent) (q : List XEvent)
    (hopen : X.XOpenDisplay none = some dpy) (hq : w.queue = e :: q) :
    ∃ out' w', setup X width height out w = Outcome.returned 1 out' w' ∧
      out'.display = some dpy ∧
      out'.min_color = (if toLong dpy.white_pixel > toLong dpy.black_pixel
        then toLong dpy.black_pixel else toLong dpy.white_pixel) ∧
      out'.max_color = (if toLong dpy.white_pixel > toLong dpy.black_pixel
        then toLong dpy.white_pixel else toLong dpy.black_pixel) ∧
      w'.consumed = w.consumed ++ [e] ∧ w'.queue = q ∧
      w'.g_mapEntry = some (initialiseColorMap X dpy dpy.default_screen w.server).colorArray := by
  have hrun := (setup_of_opened X width height out w dpy hopen).trans
    (setupConnected_returns X width height dpy _ _ e q hq)
  exact ⟨_, _, hrun, rfl, rfl, rfl, rfl, rfl, rfl⟩

/-- On a reachable display whose connection never delivers an event, `setup`
does not return: it stays in `XNextEvent`, having consumed nothing. -/
theorem setup_blocks_on_empty_queue {σ : Type} (X : Xlib σ) (width height : Int)
    (out : OutCells) (w : World σ) (dpy : Display)
    (hopen : X.XOpenDisplay none = some dpy) (hq : w.queue = []) :
    ∃ out' w', setup X width height out w = Outcome.blocked out' w' ∧
      w'.consumed = w.consumed := by
  have hrun := (setup_of_opened X width height out w dpy hopen).trans
    (setupConnected_blocks X width height dpy _ _ hq)
  exact ⟨_, _, hrun, rfl⟩

/-- C7: for every width and height, when XOpenDisplay yields NULL, setup
returns 0; the cells behind win, gc, min_color and max_color keep their
contents and only the display cell is written (with NULL); g_mapEntry, the
server state, the event queue and the consumed events are unchanged; the only
Xlib call is XOpenDisplay (so no colour is allocated and nothing is created or
mapped); one diagnostic line is written. -/
theorem setup_unreachable {σ : Type} (X : Xlib σ) (width height : Int) (out : OutCells)
    (w : World σ) (hopen : X.XOpenDisplay none = none) :
    ∃ out' w', setup X width height out w = Outcome.returned 0 out' w' ∧
      out'.display = none ∧ out'.win = out.win ∧ out'.gc = out.gc ∧
      out'.min_color = out.min_color ∧ out'.max_color = out.max_color ∧
      w'.g_mapEntry = w.g_mapEntry ∧ w'.server = w.server ∧
      w'.queue = w.queue ∧ w'.consumed = w.consumed ∧
      w'.calls = w.calls ++ [XCall.openDisplay none] ∧
      w'.stderr = w.stderr ++ ["Cannot connect to X server " ++ X.XDisplayName none ++ "\n"] := by
  have hrun : setup X width height out w =
      Outcome.returned 0 { out with display := none }
        ((w.request (XCall.openDisplay none) w.server).print
          ("Cannot connect to X server " ++ X.XDisplayName none ++ "\n")) := by
    simp only [setup, hopen]
  exact ⟨_, _, hrun, rfl, rfl, rfl, rfl, rfl, rfl, rfl, rfl, rfl, rfl, rfl⟩

theorem setup_unreachable_witness :
    (countingXlib none).XOpenDisplay none = none ∧
      ∃ out' w', setup (countingXlib none) 500 500 staleCells
          (freshWorld [⟨KeyPress, 0⟩]) = Outcome.returned 0 out' w' ∧
        out'.display = none ∧ out'.win = staleCells.win ∧ out'.gc = staleCells.gc ∧
        out'.min_color = staleCells.min_color ∧ out'.max_color = staleCells.max_color ∧
        w'.g_mapEntry = (freshWorld [⟨KeyPress, 0⟩]).g_mapEntry ∧
        w'.server = (freshWorld [⟨KeyPress, 0⟩]).server ∧
        w'.queue = (freshWorld [⟨KeyPress, 0⟩]).queue ∧
        w'.consumed = (freshWorld [⟨KeyPress, 0⟩]).consumed ∧
        w'.calls = (freshWorld [⟨KeyPress, 0⟩]).calls ++ [XCall.openDisplay none] ∧
        w'.stderr = (freshWorld [⟨KeyPress, 0⟩]).stderr ++
          ["Cannot connect to X server " ++ (countingXlib none).XDisplayName none ++ "\n"] :=
  ⟨rfl, setup_unreachable (countingXlib none) 500 500 staleCells (freshWorld [⟨KeyPress, 0⟩]) rfl⟩

/-- C8: for every width and height, every server behaviour (whatever the
colour, window and context calls return) and every reachable display, once the
connection delivers an event setup returns 1 with min_color the smaller and
max_color the larger of white and black, the two `long` locals holding
WhitePixel and BlackPixel; hence min_color <= max_color.  When both pixel
values are below 2^63 the locals equal the reported values themselves. -/
theorem setup_color_range {σ : Type} (X : Xlib σ) (width height : Int) (out : OutCells)
    (w : World σ) (dpy : Display) (e : XEvent) (q : List XEvent)
    (hopen : X.XOpenDisplay none = some dpy) (hq : w.queue = e :: q) :
    ∃ out' w', setup X width height out w = Outcome.returned 1 out' w' ∧
      out'.min_color = min (toLong dpy.white_pixel) (toLong dpy.black_pixel) ∧
      out'.max_color = max (toLong dpy.white_pixel) (toLong dpy.black_pixel) ∧
      out'.min_color ≤ out'.max_color ∧
      (dpy.white_pixel < 2 ^ 63 → dpy.black_pixel < 2 ^ 63 →
        out'.min_color = ((min dpy.white_pixel dpy.black_pixel : Nat) : Int) ∧
        out'.max_color = ((max dpy.white_pixel dpy.black_pixel : Nat) : Int)) := by
  obtain ⟨out', w', hrun, _, hmin, hmax, _⟩ := setup_reachable X width height out w dpy e q hopen hq
  refine ⟨out', w', hrun, ?_, ?_, ?_, ?_⟩
  · rw [hmin]; split <;> omega
  · rw [hmax]; split <;> omega
  · rw [hmin, hmax]; split <;> omega
  · intro hw hb
    have e1 : toLong dpy.white_pixel = (dpy.white_pixel : Int) := by
      unfold toLong; split <;> omega
    have e2 : toLong dpy.black_pixel = (dpy.black_pixel : Int) := by
      unfold toLong; split <;> omega
    rw [hmin, hmax, e1, e2]
    constructor <;> split <;> omega

theorem setup_color_range_witness :
    (countingXlib (some sampleDisplay)).XOpenDisplay none = some sampleDisplay ∧
      (freshWorld [⟨KeyPress, 2048⟩]).queue = ⟨KeyPress, 2048⟩ :: [] ∧
      ∃ out' w', setup (countingXlib (some sampleDisplay)) 500 500 staleCells
          (freshWorld [⟨KeyPress, 2048⟩]) = Outcome.returned 1 out' w' ∧
        out'.min_color
          = min (toLong sampleDisplay.white_pixel) (toLong sampleDisplay.black_pixel) ∧
        out'.max_color
          = max (toLong sampleDisplay.white_pixel) (toLong sampleDisplay.black_pixel) ∧
        out'.min_color ≤ out'.max_color ∧
        (sampleDisplay.white_pixel < 2 ^ 63 → sampleDisplay.black_pixel < 2 ^ 63 →
          out'.min_color
            = ((min sampleDisplay.white_pixel sampleDisplay.black_pixel : Nat) : Int) ∧
          out'.max_color
            = ((max sampleDisplay.white_pixel sampleDisplay.black_pixel : Nat) : Int)) :=
  ⟨rfl, rfl,
    setup_color_range (countingXlib (some sampleDisplay)) 500 500 staleCells
      (freshWorld [⟨KeyPress, 2048⟩]) sampleDisplay ⟨KeyPress, 2048⟩ [] rfl rfl⟩

/-- C9 fails on the code: with a reachable display and an event queue holding
a single MappingNotify event, setup returns 1 having consumed that event only,
so no key-press event is among the events it consumed. -/
theorem setup_returns_without_key_press :
    ∃ out' w', setup (countingXlib (some sampleDisplay)) 500 500 staleCells
        (freshWorld [⟨MappingNotify, 0⟩]) = Outcome.returned 1 out' w' ∧
      w'.consumed = [⟨MappingNotify, 0⟩] ∧
      ∀ e ∈ w'.consumed, e.type ≠ KeyPress := by
  obtain ⟨out', w', hrun, _, _, _, hcons, _⟩ :=
    setup_reachable (countingXlib (some sampleDisplay)) 500 500 staleCells
      (freshWorld [⟨MappingNotify, 0⟩]) sampleDisplay ⟨MappingNotify, 0⟩ [] rfl rfl
  refine ⟨out', w', hrun, hcons, ?_⟩
  rw [hcons]
  decide

end MandelbrotGui
